import Mathlib

/-! Pool provider for Kubernetes: provisioning, routing and teardown.

A shallow embedding of `src/kubernetes.go`.

* Go values that can be `nil` (pointers, maps, the `error` interface) are
  `Option`s; a nil dereference, a method call on a nil `error` and an
  assignment into a nil map end the run with `Go.panicked`.
* The Kubernetes clientset (`kubernetes.Interface`) is an external library:
  it is a parameter, `Clientset σ`, over an arbitrary store state `σ`.
  Every call the code issues is appended to `World.calls`.
* `memClientset` is one concrete clientset, an in-memory object store with
  injectable rejections, used for scenarios and concrete runs.
* `log.Println` has no effect on results or on the store and is left out.
-/

namespace PoolProvider

/-! ## Go runtime values -/

/-- Outcome of running a Go function: it returns a value or the goroutine panics. -/
inductive Go (α : Type) where
  | returned (a : α)
  | panicked (msg : String)
deriving DecidableEq, Repr

/-- Runtime panic text for a nil pointer or nil interface dereference. -/
def nilDereference : String :=
  "runtime error: invalid memory address or nil pointer dereference"

/-- Runtime panic text for a write into a nil map. -/
def nilMapAssignment : String := "assignment to entry in nil map"

/-- Go map write `m[k] = v` on a non-nil `map[string]string`, kept as an association list. -/
def mapSet (m : List (String × String)) (k v : String) : List (String × String) :=
  match m with
  | [] => [(k, v)]
  | (k0, v0) :: rest => if k0 = k then (k, v) :: rest else (k0, v0) :: mapSet rest k v

/-- Go map read `m[k]`: the zero value `""` when the key is missing. -/
def mapGet (m : List (String × String)) (k : String) : String :=
  match m with
  | [] => ""
  | (k0, v0) :: rest => if k0 = k then v0 else mapGet rest k

/-! ## Data model -/

/-- The `v1.Volume` built by `getSecretVolume`: a name and the secret it references. -/
structure Volume where
  Name : String
  SecretName : String
deriving DecidableEq, Repr

/-- The fields of `v1.Pod` the code reads or writes; `Template` stands for the
rest of the object (containers, images, ...), which the code never touches. -/
structure Pod where
  Name : String
  Labels : List (String × String)
  Volumes : List Volume
  Template : String
deriving DecidableEq, Repr

/-- The fields of `v1.Secret` the code reads or writes. `Data` is a Go map:
`none` is the nil map. -/
structure Secret where
  Name : String
  Labels : List (String × String)
  Data : Option (List (String × String))
deriving DecidableEq, Repr

/-- Zero value `v1.Pod{}`. -/
def Pod.zero : Pod := ⟨"", [], [], ""⟩

/-- Zero value `v1.Secret{}`. -/
def Secret.zero : Secret := ⟨"", [], none⟩

/-- The `PodResponse` struct of `kubernetes.go`. -/
structure PodResponse where
  Status : String
  Message : String
deriving DecidableEq, Repr

/-- Modelled from the spec: the `AgentConfiguration` part of `AgentRequest`, a type
declared outside `src/`; the fields are the ones `createSecret` reads.
`AgentSettings` and `AgentCredentials` hold the text `json.Marshal` yields for them. -/
structure AgentConfiguration where
  AgentSettings : String
  AgentCredentials : String
  AgentDownloadUrls : List (String × String)
  AgentVersion : String
deriving DecidableEq, Repr

/-- Modelled from the spec: the `AgentRequest` type, declared outside `src/`; the
fields are the ones `CreatePod` and `createSecret` read. -/
structure AgentRequest where
  AgentId : String
  AgentConfiguration : AgentConfiguration
deriving DecidableEq, Repr

/-- Modelled from the spec: the `AgentProvisionResponse` type, declared outside
`src/` (the spec's `ProvisionOutcome`); the fields are the ones the code writes. -/
structure AgentProvisionResponse where
  ResponseType : String
  ErrorMessage : String
  Accepted : Bool
deriving DecidableEq, Repr

/-- The constant `agentIdLabel`. -/
def agentIdLabel : String := "AgentId"

/-! ## External collaborators -/

/-- What the code takes from outside `kubernetes.go`: the package-level variable
`podnamespace` (declared outside `src/`), the file system (`ioutil.ReadFile`
gives the bytes and an error), the YAML decoder (`yaml.Unmarshal` fills the
object it is handed and gives an error) and `ComputeConsistentHash` (declared
outside `src/`; it returns a string, so it can only fail by panicking). -/
structure Env where
  podnamespace : String
  ReadFile : String → String × Option String
  UnmarshalPod : String → Pod → Pod × Option String
  UnmarshalSecret : String → Secret → Secret × Option String
  ComputeConsistentHash : List String → String → Go String

/-- The part of `kubernetes.Interface` the code calls, over a store state `σ`.
The first argument of every operation is the namespace the client was made for
(`CoreV1().Secrets(ns)`, `CoreV1().Pods(ns)`). `Create` gives back an object
pointer (possibly nil) and an error (possibly nil); `List` takes the label
selector, is a read, and gives back a list pointer and an error; `Delete` takes
the object name and gives back an error. -/
structure Clientset (σ : Type) where
  SecretsCreate : String → Secret → σ → (Option Secret × Option String) × σ
  SecretsList : String → String → σ → Option (List Secret) × Option String
  SecretsDelete : String → String → σ → Option String × σ
  PodsCreate : String → Pod → σ → (Option Pod × Option String) × σ
  PodsList : String → String → σ → Option (List Pod) × Option String
  PodsDelete : String → String → σ → Option String × σ

/-- One call issued to the store. -/
inductive Call where
  | SecretsCreate (ns : String) (secret : Secret)
  | SecretsList (ns selector : String)
  | SecretsDelete (ns name : String)
  | PodsCreate (ns : String) (pod : Pod)
  | PodsList (ns selector : String)
  | PodsDelete (ns name : String)
deriving DecidableEq, Repr

/-- The store together with the calls issued to it so far, oldest first. -/
structure World (σ : Type) where
  store : σ
  calls : List Call

/-! ## The functions of `kubernetes.go` -/

/-- `getFailure`: `err.Error()` panics when `err` is the nil interface. -/
def getFailure (response : PodResponse) (err : Option String) : Go PodResponse :=
  match err with
  | none => .panicked nilDereference
  | some msg => .returned { response with Status := "fail", Message := msg }

/-- `getFailureResponse`: `err.Error()` panics when `err` is the nil interface. -/
def getFailureResponse (response : AgentProvisionResponse) (err : Option String) :
    Go AgentProvisionResponse :=
  match err with
  | none => .panicked nilDereference
  | some msg => .returned { response with ResponseType := "fail", ErrorMessage := msg }

/-- `getSecretVolume`. -/
def getSecretVolume (secretName : String) : Volume :=
  { Name := "agent-creds", SecretName := secretName }

/-- `getAgentSecret`: both the read error and the decode error are dropped. -/
def getAgentSecret (env : Env) : Secret :=
  let secret : Secret := Secret.zero
  let dat := (env.ReadFile "agentpods/agent-secret.yaml").1
  let secretYaml := dat
  (env.UnmarshalSecret secretYaml secret).1

/-- `getAgentSpecification`: both the read error and the decode error are
dropped (`dat, _ :=`, `_ =`); the error returned is always nil. -/
def getAgentSpecification (env : Env) (agentId : String) (_agentVersion : String) :
    Pod × Option String :=
  let podname := "azure-pipelines-agent"
  let dat := (env.ReadFile ("agentpods/" ++ podname ++ ".yaml")).1
  let p1 : Pod := Pod.zero
  let podYaml := dat
  let p1 := (env.UnmarshalPod podYaml p1).1
  let p1 := if agentId ≠ "" then { p1 with Labels := [(agentIdLabel, agentId)] } else p1
  (p1, none)

/-- Lines 175-191 of `createSecret`: the object handed to `secretClient.Create`,
or the panic of the first `secret.Data[...] = ...` when the decoded secret has
no `data` map. -/
def secretToCreate (env : Env) (request : AgentRequest) : Go Secret :=
  let secret := getAgentSecret env
  let agentSettings := request.AgentConfiguration.AgentSettings
  let agentCredentials := request.AgentConfiguration.AgentCredentials
  let secret :=
    if request.AgentId ≠ "" then { secret with Labels := [(agentIdLabel, request.AgentId)] }
    else secret
  match secret.Data with
  | none => .panicked nilMapAssignment
  | some data =>
    let data := mapSet data ".agent" agentSettings
    let data := mapSet data ".credentials" agentCredentials
    let data := mapSet data ".url" (mapGet request.AgentConfiguration.AgentDownloadUrls "linux-x64")
    let data := mapSet data ".agentVersion" request.AgentConfiguration.AgentVersion
    .returned { secret with Data := some data }

/-- `createSecret`. The namespace is the package-level `podnamespace`, not an
argument. When `Create` fails, the returned object is renamed `"newname"`
(a nil object makes that assignment panic) and returned all the same. -/
def createSecret {σ : Type} (env : Env) (cs : Clientset σ) (request : AgentRequest)
    (w : World σ) : Go (Option Secret) × World σ :=
  match secretToCreate env request with
  | .panicked msg => (.panicked msg, w)
  | .returned secret =>
    let r := cs.SecretsCreate env.podnamespace secret w.store
    let secret2 := r.1.1
    let err := r.1.2
    let w1 : World σ := ⟨r.2, w.calls ++ [Call.SecretsCreate env.podnamespace secret]⟩
    match err with
    | some _ =>
      match secret2 with
      | none => (.panicked nilDereference, w1)
      | some s2 => (.returned (some { s2 with Name := "newname" }), w1)
    | none => (.returned secret2, w1)

/-- `CreatePod`. -/
def CreatePod {σ : Type} (env : Env) (cs : Clientset σ) (agentRequest : AgentRequest)
    (podnamespace : String) (w : World σ) : Go AgentProvisionResponse × World σ :=
  let response : AgentProvisionResponse := ⟨"", "", false⟩
  match createSecret env cs agentRequest w with
  | (.panicked msg, w1) => (.panicked msg, w1)
  | (.returned secret, w1) =>
    let agentVersion := agentRequest.AgentConfiguration.AgentVersion
    let (pod, err) := getAgentSpecification env agentRequest.AgentId agentVersion
    match err with
    | some _ => (getFailureResponse response err, w1)
    | none =>
      match secret with
      | none => (.panicked nilDereference, w1)
      | some s =>
        let pod := { pod with Volumes := pod.Volumes ++ [getSecretVolume s.Name] }
        let r := cs.PodsCreate podnamespace pod w1.store
        let err2 := r.1.2
        let w2 : World σ := ⟨r.2, w1.calls ++ [Call.PodsCreate podnamespace pod]⟩
        match err2 with
        | some _ => (getFailureResponse response err, w2)
        | none => (.returned { response with Accepted := true, ResponseType := "Success" }, w2)

/-- The loop of `GetBuildKitPod`: the non-empty names, in list order. -/
def nodeNames (items : List Pod) : List String :=
  match items with
  | [] => []
  | item :: rest => if item.Name ≠ "" then item.Name :: nodeNames rest else nodeNames rest

/-- `GetBuildKitPod`. -/
def GetBuildKitPod {σ : Type} (env : Env) (cs : Clientset σ) (key : String)
    (podnamespace : String) (w : World σ) : Go PodResponse × World σ :=
  let response : PodResponse := ⟨"", ""⟩
  let labelSelector := "role=buildkit"
  let r := cs.PodsList podnamespace labelSelector w.store
  let podlist := r.1
  let err2 := r.2
  let w1 : World σ := ⟨w.store, w.calls ++ [Call.PodsList podnamespace labelSelector]⟩
  match err2 with
  | some _ => (getFailure response err2, w1)
  | none =>
    match podlist with
    | none => (.panicked nilDereference, w1)
    | some items =>
      let nodes := nodeNames items
      match env.ComputeConsistentHash nodes key with
      | .panicked msg => (.panicked msg, w1)
      | .returned chosen =>
        (.returned { response with Status := "success", Message := chosen }, w1)

/-- `DeletePodWithAgentId`. -/
def DeletePodWithAgentId {σ : Type} (cs : Clientset σ) (agentId : String)
    (podnamespace : String) (w : World σ) : Go PodResponse × World σ :=
  let response : PodResponse := ⟨"", ""⟩
  let selector := agentIdLabel ++ "=" ++ agentId
  let secrets := (cs.SecretsList podnamespace selector w.store).1
  let w1 : World σ := ⟨w.store, w.calls ++ [Call.SecretsList podnamespace selector]⟩
  match secrets with
  | none => (getFailure response (some ("Could not find secret with AgentId " ++ agentId)), w1)
  | some [] => (getFailure response (some ("Could not find secret with AgentId " ++ agentId)), w1)
  | some (secret0 :: _) =>
    let pods := (cs.PodsList podnamespace selector w1.store).1
    let w2 : World σ := ⟨w1.store, w1.calls ++ [Call.PodsList podnamespace selector]⟩
    match pods with
    | none =>
      (getFailure response (some ("Could not find running pod with AgentId " ++ agentId)), w2)
    | some [] =>
      (getFailure response (some ("Could not find running pod with AgentId " ++ agentId)), w2)
    | some (pod0 :: _) =>
      let d1 := cs.SecretsDelete podnamespace secret0.Name w2.store
      let err1 := d1.1
      let w3 : World σ := ⟨d1.2, w2.calls ++ [Call.SecretsDelete podnamespace secret0.Name]⟩
      match err1 with
      | some _ => (getFailure response err1, w3)
      | none =>
        let d2 := cs.PodsDelete podnamespace pod0.Name w3.store
        let err2 := d2.1
        let w4 : World σ := ⟨d2.2, w3.calls ++ [Call.PodsDelete podnamespace pod0.Name]⟩
        match err2 with
        | some _ => (getFailure response err2, w4)
        | none =>
          (.returned { response with
              Status := "success",
              Message := "Deleted " ++ pod0.Name ++ " and secret " ++ secret0.Name }, w4)

/-! ## An in-memory clientset -/

/-- Store contents: the secrets and pods, each with its namespace, oldest first. -/
structure MemStore where
  secrets : List (String × Secret)
  pods : List (String × Pod)
deriving DecidableEq, Repr

/-- Rejections injected into the in-memory clientset: for each operation, the
error text it fails with, or `none` to let it run. -/
structure Faults where
  secretsCreate : Option String
  secretsList : Option String
  secretsDelete : Option String
  podsCreate : Option String
  podsList : Option String
  podsDelete : Option String

/-- No injected rejection. -/
def Faults.none : Faults := ⟨.none, .none, .none, .none, .none, .none⟩

/-- One requirement of a label selector. -/
inductive Requirement where
  | equals (key value : String)
  | notEquals (key value : String)
  | present (key : String)
  | absent (key : String)
deriving DecidableEq, Repr

/-- The characters of a label name or value: ASCII letters, digits, `-`, `_`, `.`. -/
def isLabelChar (c : Char) : Bool :=
  c.isAlphanum || c == '-' || c == '_' || c == '.'

/-- A label name: one to 63 label characters, the first and the last alphanumeric. -/
def validLabelName (cs : List Char) : Bool :=
  decide (cs.length ≤ 63) && cs.all isLabelChar &&
    (match cs.head? with
      | some c => c.isAlphanum
      | none => false) &&
    (match cs.getLast? with
      | some c => c.isAlphanum
      | none => false)

/-- A label value: empty, or built like a label name. -/
def validLabelValue (cs : List Char) : Bool :=
  cs.isEmpty || validLabelName cs

/-- The pieces of a selector between its commas. -/
def splitCommas : List Char → List (List Char)
  | [] => [[]]
  | c :: cs =>
    if c = ',' then [] :: splitCommas cs
    else
      match splitCommas cs with
      | [] => [[c]]
      | piece :: rest => (c :: piece) :: rest

/-- One piece of a selector: `!key`, `key`, `key=value`, `key==value` or
`key!=value`, over label names without a domain part and without blanks; any
other piece is not understood. -/
def parseRequirement (piece : List Char) : Option Requirement :=
  match piece with
  | '!' :: key => if validLabelName key then some (.absent (String.mk key)) else none
  | _ =>
    let key := piece.takeWhile (fun c => c != '=' && c != '!')
    let rest := piece.dropWhile (fun c => c != '=' && c != '!')
    if validLabelName key then
      match rest with
      | [] => some (.present (String.mk key))
      | '=' :: '=' :: value =>
        if validLabelValue value then some (.equals (String.mk key) (String.mk value)) else none
      | '=' :: value =>
        if validLabelValue value then some (.equals (String.mk key) (String.mk value)) else none
      | '!' :: '=' :: value =>
        if validLabelValue value then some (.notEquals (String.mk key) (String.mk value))
        else none
      | _ => none
    else none

/-- All pieces parsed, or `none` when one of them is not understood. -/
def parseRequirements : List (List Char) → Option (List Requirement)
  | [] => some []
  | piece :: rest =>
    match parseRequirement piece, parseRequirements rest with
    | some r, some rs => some (r :: rs)
    | _, _ => none

/-- A label selector as the requirements it stands for: the empty selector has
none, otherwise one requirement for each piece between commas. Set requirements
(`in`, `notin`), comparisons and blanks are not understood. -/
def parseSelector (selector : String) : Option (List Requirement) :=
  match selector.toList with
  | [] => some []
  | cs => parseRequirements (splitCommas cs)

/-- The value a label map holds for a key, if any. -/
def labelValue (labels : List (String × String)) (key : String) : Option String :=
  match labels with
  | [] => none
  | (k, v) :: rest => if k = key then some v else labelValue rest key

/-- Whether a label map meets one requirement. -/
def meets (labels : List (String × String)) : Requirement → Bool
  | .equals key value => decide (labelValue labels key = some value)
  | .notEquals key value => !decide (labelValue labels key = some value)
  | .present key => (labelValue labels key).isSome
  | .absent key => !(labelValue labels key).isSome

/-- Whether a label map meets every requirement of a selector. -/
def hasLabel (labels : List (String × String)) (requirements : List Requirement) : Bool :=
  requirements.all (meets labels)

/-- Whether an object of namespace `objectNs` is in the scope of a client made for
`ns`: the empty namespace is a client over all namespaces. -/
def inNamespace (ns objectNs : String) : Bool :=
  decide (ns = "") || decide (objectNs = ns)

/-- The in-memory clientset, a stand-in store for concrete runs. A rejected
`Create` hands back the zero object with the error and a rejected `List` an
empty list with the error, as the typed client of client-go does. `Create`
rejects a name already taken in the namespace, `Delete` a name that is not
there. `List` parses the label selector, rejects one it does not understand,
and lists over all namespaces when the client was made for the empty namespace. -/
def memClientset (f : Faults) : Clientset MemStore where
  SecretsCreate := fun ns secret st =>
    match f.secretsCreate with
    | some e => ((some Secret.zero, some e), st)
    | none =>
      if st.secrets.any (fun p => decide (p.1 = ns ∧ p.2.Name = secret.Name)) then
        ((some Secret.zero, some ("secrets " ++ secret.Name ++ " already exists")), st)
      else ((some secret, .none), { st with secrets := st.secrets ++ [(ns, secret)] })
  SecretsList := fun ns selector st =>
    match f.secretsList with
    | some e => (some [], some e)
    | none =>
      match parseSelector selector with
      | .none => (some [], some ("unable to parse label selector " ++ selector))
      | some requirements =>
        (some ((st.secrets.filter
          (fun p => inNamespace ns p.1 && hasLabel p.2.Labels requirements)).map Prod.snd),
         .none)
  SecretsDelete := fun ns name st =>
    match f.secretsDelete with
    | some e => (some e, st)
    | none =>
      if st.secrets.any (fun p => decide (p.1 = ns ∧ p.2.Name = name)) then
        (.none, { st with
          secrets := st.secrets.filter (fun p => !decide (p.1 = ns ∧ p.2.Name = name)) })
      else (some ("secrets " ++ name ++ " not found"), st)
  PodsCreate := fun ns pod st =>
    match f.podsCreate with
    | some e => ((some Pod.zero, some e), st)
    | none =>
      if st.pods.any (fun p => decide (p.1 = ns ∧ p.2.Name = pod.Name)) then
        ((some Pod.zero, some ("pods " ++ pod.Name ++ " already exists")), st)
      else ((some pod, .none), { st with pods := st.pods ++ [(ns, pod)] })
  PodsList := fun ns selector st =>
    match f.podsList with
    | some e => (some [], some e)
    | none =>
      match parseSelector selector with
      | .none => (some [], some ("unable to parse label selector " ++ selector))
      | some requirements =>
        (some ((st.pods.filter
          (fun p => inNamespace ns p.1 && hasLabel p.2.Labels requirements)).map Prod.snd),
         .none)
  PodsDelete := fun ns name st =>
    match f.podsDelete with
    | some e => (some e, st)
    | none =>
      if st.pods.any (fun p => decide (p.1 = ns ∧ p.2.Name = name)) then
        (.none, { st with
          pods := st.pods.filter (fun p => !decide (p.1 = ns ∧ p.2.Name = name)) })
      else (some ("pods " ++ name ++ " not found"), st)

/-! ## Concrete inputs for scenarios -/

/-- A configuration in which both template files are present: the secret
template has a name and an empty `data` map, the pod template a name. The
stand-in for `ComputeConsistentHash` picks the first candidate and returns the
empty string for an empty pool. -/
def sampleEnv : Env where
  podnamespace := "azuredevops"
  ReadFile := fun path =>
    if path = "agentpods/azure-pipelines-agent.yaml" then ("pod-template", none)
    else if path = "agentpods/agent-secret.yaml" then ("secret-template", none)
    else ("", some "no such file or directory")
  UnmarshalPod := fun dat p =>
    if dat = "pod-template" then (⟨"azure-pipelines-agent", [], [], "dind"⟩, none)
    else if dat = "" then (p, none)
    else (p, some "yaml: cannot decode")
  UnmarshalSecret := fun dat s =>
    if dat = "secret-template" then (⟨"agent-secret", [], some []⟩, none)
    else if dat = "" then (s, none)
    else (s, some "yaml: cannot decode")
  ComputeConsistentHash := fun nodes _ =>
    match nodes with
    | [] => .returned ""
    | n :: _ => .returned n

/-- The same configuration with the worker template file missing: `ReadFile`
fails for it and the decoder, handed no bytes, leaves the pod untouched. -/
def missingTemplateEnv : Env :=
  { sampleEnv with
    ReadFile := fun path =>
      if path = "agentpods/agent-secret.yaml" then ("secret-template", none)
      else ("", some "no such file or directory") }

/-- The same configuration with a worker template that decodes with an error:
the decoder fills in what it could (here the whole pod) and reports the error,
as `yaml.Unmarshal` does for a value of the wrong type. -/
def undecodableTemplateEnv : Env :=
  { sampleEnv with
    UnmarshalPod := fun dat p =>
      if dat = "pod-template" then
        (⟨"azure-pipelines-agent", [], [], "dind"⟩, some "json: cannot unmarshal string")
      else (p, none) }

/-- A provisioning request for job `job-1`. -/
def sampleRequest : AgentRequest :=
  { AgentId := "job-1",
    AgentConfiguration :=
      { AgentSettings := "settings-json",
        AgentCredentials := "credentials-json",
        AgentDownloadUrls := [("linux-x64", "https://example.test/agent.tar.gz")],
        AgentVersion := "2.163.1" } }

/-- The empty store with no call issued yet. -/
def emptyWorld : World MemStore := ⟨⟨[], []⟩, []⟩

/-- The secret `createSecret` builds for `sampleRequest` under `sampleEnv`. -/
def sampleSecret : Secret :=
  { Name := "agent-secret",
    Labels := [("AgentId", "job-1")],
    Data := some [(".agent", "settings-json"), (".credentials", "credentials-json"),
      (".url", "https://example.test/agent.tar.gz"), (".agentVersion", "2.163.1")] }

/-- The pod `CreatePod` submits for `sampleRequest` under `sampleEnv` when the
secret it mounts is called `secretName`. -/
def samplePod (secretName : String) : Pod :=
  { Name := "azure-pipelines-agent",
    Labels := [("AgentId", "job-1")],
    Volumes := [⟨"agent-creds", secretName⟩],
    Template := "dind" }

/-- The pod `CreatePod` hands to `podClient.Create` when the secret returned by
`createSecret` is called `secretName`: the result of `getAgentSpecification`
with the secret volume appended. -/
def podToCreate (env : Env) (agentRequest : AgentRequest) (secretName : String) : Pod :=
  let pod := (getAgentSpecification env agentRequest.AgentId
    agentRequest.AgentConfiguration.AgentVersion).1
  { pod with Volumes := pod.Volumes ++ [getSecretVolume secretName] }

/-- A store in which job `job-1` has a Credential but no Worker. -/
def secretOnlyWorld : World MemStore := ⟨⟨[("azuredevops", sampleSecret)], []⟩, []⟩

/-- A store in which job `job-1` has its Credential and its Worker, and a second
Credential and Worker of another job are present too. -/
def provisionedWorld : World MemStore :=
  ⟨⟨[("azuredevops", sampleSecret), ("azuredevops", ⟨"other-secret", [("AgentId", "job-9")], some []⟩)],
    [("azuredevops", samplePod "agent-secret"),
     ("azuredevops", ⟨"other-pod", [("AgentId", "job-9")], [], "dind"⟩)]⟩, []⟩

/-- A clientset whose Credential delete is rejected. -/
def secretsDeleteRejected : Faults :=
  { Faults.none with secretsDelete := some "secrets agent-secret is forbidden" }

/-- A store in which two Credentials and two Workers carry the label of job
`job-1` (an older pair was never torn down). -/
def duplicateWorld : World MemStore :=
  ⟨⟨[("azuredevops", sampleSecret),
     ("azuredevops", ⟨"agent-secret-old", [("AgentId", "job-1")], some []⟩)],
    [("azuredevops", samplePod "agent-secret"),
     ("azuredevops", ⟨"agent-pod-old", [("AgentId", "job-1")], [], "dind"⟩)]⟩, []⟩

/-- A clientset whose Credential create is rejected. -/
def secretsCreateRejected : Faults :=
  { Faults.none with secretsCreate := some "secrets is forbidden" }

/-- A clientset whose Worker create is rejected. -/
def podsCreateRejected : Faults :=
  { Faults.none with podsCreate := some "pods is forbidden" }

/-- The pod `CreatePod` submits for `sampleRequest` under `missingTemplateEnv`:
the zero pod with the label and the secret volume. -/
def untemplatedPod : Pod :=
  { Name := "", Labels := [("AgentId", "job-1")],
    Volumes := [⟨"agent-creds", "agent-secret"⟩], Template := "" }

/-- The world after `CreatePod` has run against the in-memory clientset with no
injected rejection. -/
def afterProvision (env : Env) (agentRequest : AgentRequest) (ns : String)
    (w : World MemStore) : World MemStore :=
  (CreatePod env (memClientset Faults.none) agentRequest ns w).2

/-- C5: when the Credential list for the identity is absent (nil) or empty,
`DeletePodWithAgentId` returns status `fail` with the message
`Could not find secret with AgentId <identity>`; the only call it issues is the
Credential list (no Worker list, no delete) and the store is left as it was.
Nothing is assumed about the Workers in the store. -/
theorem DeletePodWithAgentId_secret_not_found {σ : Type} (cs : Clientset σ)
    (agentId ns : String) (w : World σ)
    (h : (cs.SecretsList ns (agentIdLabel ++ "=" ++ agentId) w.store).1 = none ∨
         (cs.SecretsList ns (agentIdLabel ++ "=" ++ agentId) w.store).1 = some []) :
    DeletePodWithAgentId cs agentId ns w =
      (Go.returned ⟨"fail", "Could not find secret with AgentId " ++ agentId⟩,
       ⟨w.store, w.calls ++ [Call.SecretsList ns (agentIdLabel ++ "=" ++ agentId)]⟩) := by
  rcases h with h | h <;> simp [DeletePodWithAgentId, h, getFailure]

/-- Witness for C5: teardown of `unknown-job` on the empty store. -/
theorem DeletePodWithAgentId_secret_not_found_witness :
    DeletePodWithAgentId (memClientset Faults.none) "unknown-job" "azuredevops" emptyWorld =
      (Go.returned ⟨"fail", "Could not find secret with AgentId unknown-job"⟩,
       ⟨emptyWorld.store, [Call.SecretsList "azuredevops" "AgentId=unknown-job"]⟩) :=
  DeletePodWithAgentId_secret_not_found (memClientset Faults.none) "unknown-job" "azuredevops"
    emptyWorld (Or.inr (by decide))

/-- C6: when at least one Credential carries the label and the Worker list is
absent (nil) or empty, `DeletePodWithAgentId` returns status `fail` with the
message `Could not find running pod with AgentId <identity>`; the calls it
issues are the two lists and nothing else (no delete), the store is left as it
was, and the Credential list read from the store afterwards is the same
non-empty list. -/
theorem DeletePodWithAgentId_pod_not_found {σ : Type} (cs : Clientset σ)
    (agentId ns : String) (w : World σ) (secret0 : Secret) (secrets : List Secret)
    (hs : (cs.SecretsList ns (agentIdLabel ++ "=" ++ agentId) w.store).1 =
      some (secret0 :: secrets))
    (hp : (cs.PodsList ns (agentIdLabel ++ "=" ++ agentId) w.store).1 = none ∨
          (cs.PodsList ns (agentIdLabel ++ "=" ++ agentId) w.store).1 = some []) :
    DeletePodWithAgentId cs agentId ns w =
      (Go.returned ⟨"fail", "Could not find running pod with AgentId " ++ agentId⟩,
       ⟨w.store, w.calls ++ [Call.SecretsList ns (agentIdLabel ++ "=" ++ agentId),
          Call.PodsList ns (agentIdLabel ++ "=" ++ agentId)]⟩) ∧
    (cs.SecretsList ns (agentIdLabel ++ "=" ++ agentId)
      (DeletePodWithAgentId cs agentId ns w).2.store).1 = some (secret0 :: secrets) := by
  rcases hp with hp | hp <;> simp [DeletePodWithAgentId, hs, hp, getFailure]

/-- Witness for C6: teardown of `job-1` when only its Credential is in the store. -/
theorem DeletePodWithAgentId_pod_not_found_witness :
    DeletePodWithAgentId (memClientset Faults.none) "job-1" "azuredevops" secretOnlyWorld =
      (Go.returned ⟨"fail", "Could not find running pod with AgentId job-1"⟩,
       ⟨secretOnlyWorld.store, [Call.SecretsList "azuredevops" "AgentId=job-1",
          Call.PodsList "azuredevops" "AgentId=job-1"]⟩) ∧
    ((memClientset Faults.none).SecretsList "azuredevops" "AgentId=job-1"
      (DeletePodWithAgentId (memClientset Faults.none) "job-1" "azuredevops"
        secretOnlyWorld).2.store).1 = some [sampleSecret] :=
  DeletePodWithAgentId_pod_not_found (memClientset Faults.none) "job-1" "azuredevops"
    secretOnlyWorld sampleSecret [] (by decide) (Or.inr (by decide))

/-- C7: when both lists are non-empty and the store rejects the delete of the
first listed Credential with error `e`, `DeletePodWithAgentId` returns status
`fail` with message `e`; the calls it issues are the two lists and that one
Credential delete (no Worker delete), and the store is left in the state the
rejected Credential delete left it in: when the rejected delete changed nothing,
the Worker list read afterwards is the same as before. -/
theorem DeletePodWithAgentId_secret_delete_rejected {σ : Type} (cs : Clientset σ)
    (agentId ns : String) (w : World σ) (secret0 : Secret) (secrets : List Secret)
    (pod0 : Pod) (pods : List Pod) (e : String)
    (hs : (cs.SecretsList ns (agentIdLabel ++ "=" ++ agentId) w.store).1 =
      some (secret0 :: secrets))
    (hp : (cs.PodsList ns (agentIdLabel ++ "=" ++ agentId) w.store).1 = some (pod0 :: pods))
    (hd : (cs.SecretsDelete ns secret0.Name w.store).1 = some e) :
    DeletePodWithAgentId cs agentId ns w =
      (Go.returned ⟨"fail", e⟩,
       ⟨(cs.SecretsDelete ns secret0.Name w.store).2,
        w.calls ++ [Call.SecretsList ns (agentIdLabel ++ "=" ++ agentId),
          Call.PodsList ns (agentIdLabel ++ "=" ++ agentId),
          Call.SecretsDelete ns secret0.Name]⟩) ∧
    ((cs.SecretsDelete ns secret0.Name w.store).2 = w.store →
      (cs.PodsList ns (agentIdLabel ++ "=" ++ agentId)
        (DeletePodWithAgentId cs agentId ns w).2.store).1 = some (pod0 :: pods)) := by
  have h : DeletePodWithAgentId cs agentId ns w =
      (Go.returned ⟨"fail", e⟩,
       ⟨(cs.SecretsDelete ns secret0.Name w.store).2,
        w.calls ++ [Call.SecretsList ns (agentIdLabel ++ "=" ++ agentId),
          Call.PodsList ns (agentIdLabel ++ "=" ++ agentId),
          Call.SecretsDelete ns secret0.Name]⟩) := by
    simp [DeletePodWithAgentId, hs, hp, hd, getFailure]
  refine ⟨h, ?_⟩
  intro hsame
  rw [h]
  simpa [hsame] using hp

/-- Witness for C7: teardown of `job-1` with the Credential delete rejected; the
in-memory store is unchanged, the Worker included. -/
theorem DeletePodWithAgentId_secret_delete_rejected_witness :
    DeletePodWithAgentId (memClientset secretsDeleteRejected) "job-1" "azuredevops"
        provisionedWorld =
      (Go.returned ⟨"fail", "secrets agent-secret is forbidden"⟩,
       ⟨provisionedWorld.store,
        [Call.SecretsList "azuredevops" "AgentId=job-1",
          Call.PodsList "azuredevops" "AgentId=job-1",
          Call.SecretsDelete "azuredevops" "agent-secret"]⟩) ∧
    (((memClientset secretsDeleteRejected).SecretsDelete "azuredevops" "agent-secret"
        provisionedWorld.store).2 = provisionedWorld.store →
      ((memClientset secretsDeleteRejected).PodsList "azuredevops" "AgentId=job-1"
        (DeletePodWithAgentId (memClientset secretsDeleteRejected) "job-1" "azuredevops"
          provisionedWorld).2.store).1 = some [samplePod "agent-secret"]) :=
  DeletePodWithAgentId_secret_delete_rejected (memClientset secretsDeleteRejected) "job-1"
    "azuredevops" provisionedWorld sampleSecret [] (samplePod "agent-secret") []
    "secrets agent-secret is forbidden" (by decide) (by decide) (by decide)

/-- C8: when both lists are non-empty and both deletes succeed,
`DeletePodWithAgentId` issues exactly two delete calls, one for the name of the
first listed Credential and then one for the name of the first listed Worker,
returns status `success`, and its message is
`Deleted <worker name> and secret <credential name>`. -/
theorem DeletePodWithAgentId_success {σ : Type} (cs : Clientset σ)
    (agentId ns : String) (w : World σ) (secret0 : Secret) (secrets : List Secret)
    (pod0 : Pod) (pods : List Pod)
    (hs : (cs.SecretsList ns (agentIdLabel ++ "=" ++ agentId) w.store).1 =
      some (secret0 :: secrets))
    (hp : (cs.PodsList ns (agentIdLabel ++ "=" ++ agentId) w.store).1 = some (pod0 :: pods))
    (hd1 : (cs.SecretsDelete ns secret0.Name w.store).1 = none)
    (hd2 : (cs.PodsDelete ns pod0.Name (cs.SecretsDelete ns secret0.Name w.store).2).1 = none) :
    DeletePodWithAgentId cs agentId ns w =
      (Go.returned ⟨"success", "Deleted " ++ pod0.Name ++ " and secret " ++ secret0.Name⟩,
       ⟨(cs.PodsDelete ns pod0.Name (cs.SecretsDelete ns secret0.Name w.store).2).2,
        w.calls ++ [Call.SecretsList ns (agentIdLabel ++ "=" ++ agentId),
          Call.PodsList ns (agentIdLabel ++ "=" ++ agentId),
          Call.SecretsDelete ns secret0.Name,
          Call.PodsDelete ns pod0.Name]⟩) := by
  simp [DeletePodWithAgentId, hs, hp, hd1, hd2]

/-- Witness for C8: teardown of `job-1` when two Credentials and two Workers
carry its label; only the first listed of each is deleted. -/
theorem DeletePodWithAgentId_success_witness :
    DeletePodWithAgentId (memClientset Faults.none) "job-1" "azuredevops" duplicateWorld =
      (Go.returned ⟨"success", "Deleted azure-pipelines-agent and secret agent-secret"⟩,
       ⟨⟨[("azuredevops", ⟨"agent-secret-old", [("AgentId", "job-1")], some []⟩)],
         [("azuredevops", ⟨"agent-pod-old", [("AgentId", "job-1")], [], "dind"⟩)]⟩,
        [Call.SecretsList "azuredevops" "AgentId=job-1",
          Call.PodsList "azuredevops" "AgentId=job-1",
          Call.SecretsDelete "azuredevops" "agent-secret",
          Call.PodsDelete "azuredevops" "azure-pipelines-agent"]⟩) :=
  DeletePodWithAgentId_success (memClientset Faults.none) "job-1" "azuredevops" duplicateWorld
    sampleSecret [⟨"agent-secret-old", [("AgentId", "job-1")], some []⟩]
    (samplePod "agent-secret") [⟨"agent-pod-old", [("AgentId", "job-1")], [], "dind"⟩]
    (by decide) (by decide) (by decide) (by decide)

/-! ## Provisioning -/

/-- The error `getAgentSpecification` returns is always nil. -/
theorem getAgentSpecification_eq (env : Env) (agentId agentVersion : String) :
    getAgentSpecification env agentId agentVersion =
      ((getAgentSpecification env agentId agentVersion).1, none) := rfl

/-- When `Create` reports no error, `createSecret` returns the object it got. -/
theorem createSecret_accepted {σ : Type} (env : Env) (cs : Clientset σ)
    (request : AgentRequest) (w : World σ) (secret : Secret) (o : Option Secret) (st1 : σ)
    (hsec : secretToCreate env request = Go.returned secret)
    (hacc : cs.SecretsCreate env.podnamespace secret w.store = ((o, none), st1)) :
    createSecret env cs request w =
      (Go.returned o, ⟨st1, w.calls ++ [Call.SecretsCreate env.podnamespace secret]⟩) := by
  simp [createSecret, hsec, hacc]

/-- When `Create` reports an error and hands back an object, `createSecret`
returns that object renamed `newname`. -/
theorem createSecret_rejected {σ : Type} (env : Env) (cs : Clientset σ)
    (request : AgentRequest) (w : World σ) (secret s2 : Secret) (e : String) (st1 : σ)
    (hsec : secretToCreate env request = Go.returned secret)
    (hrej : cs.SecretsCreate env.podnamespace secret w.store = ((some s2, some e), st1)) :
    createSecret env cs request w =
      (Go.returned (some { s2 with Name := "newname" }),
       ⟨st1, w.calls ++ [Call.SecretsCreate env.podnamespace secret]⟩) := by
  simp [createSecret, hsec, hrej]

/-- Once the object is built, `createSecret` issues exactly the Credential create
call, and leaves the store as that call left it, however the call ends. -/
theorem createSecret_world {σ : Type} (env : Env) (cs : Clientset σ)
    (request : AgentRequest) (w : World σ) (secret : Secret)
    (hsec : secretToCreate env request = Go.returned secret) :
    (createSecret env cs request w).2 =
      ⟨(cs.SecretsCreate env.podnamespace secret w.store).2,
       w.calls ++ [Call.SecretsCreate env.podnamespace secret]⟩ := by
  simp only [createSecret, hsec]
  cases (cs.SecretsCreate env.podnamespace secret w.store).1.2 with
  | none => rfl
  | some e =>
    cases (cs.SecretsCreate env.podnamespace secret w.store).1.1 <;> rfl

/-- What `CreatePod` does after `createSecret` has returned a secret `s`: it
submits `podToCreate env agentRequest s.Name`; a rejection ends in the nil
`err.Error()` of the failure path, an acceptance in the success response. -/
theorem CreatePod_after_secret {σ : Type} (env : Env) (cs : Clientset σ)
    (agentRequest : AgentRequest) (ns : String) (w w1 : World σ) (s : Secret)
    (h : createSecret env cs agentRequest w = (Go.returned (some s), w1)) :
    CreatePod env cs agentRequest ns w =
      (match (cs.PodsCreate ns (podToCreate env agentRequest s.Name) w1.store).1.2 with
        | some _ => Go.panicked nilDereference
        | none => Go.returned ⟨"Success", "", true⟩,
       ⟨(cs.PodsCreate ns (podToCreate env agentRequest s.Name) w1.store).2,
        w1.calls ++ [Call.PodsCreate ns (podToCreate env agentRequest s.Name)]⟩) := by
  unfold CreatePod
  rw [h]
  dsimp only
  rw [getAgentSpecification_eq]
  dsimp only [podToCreate]
  cases (cs.PodsCreate ns _ w1.store).1.2 <;> rfl

/-- Concrete run against C1: the store rejects the Credential creation, yet
`CreatePod` returns `Accepted = true` with no error detail, having issued the
Worker create call; the Worker, mounting a secret called `newname`, is in the
store and no Credential is. -/
theorem CreatePod_secret_rejected_counterexample :
    ((memClientset secretsCreateRejected).SecretsCreate "azuredevops" sampleSecret
        emptyWorld.store).1.2 = some "secrets is forbidden" ∧
    CreatePod sampleEnv (memClientset secretsCreateRejected) sampleRequest "azuredevops"
        emptyWorld =
      (Go.returned ⟨"Success", "", true⟩,
       ⟨⟨[], [("azuredevops", samplePod "newname")]⟩,
        [Call.SecretsCreate "azuredevops" sampleSecret,
          Call.PodsCreate "azuredevops" (samplePod "newname")]⟩) :=
  ⟨by decide, by rfl⟩

/-- C1 (amended): when the store rejects the Credential creation and the client
hands back an object with the error, `CreatePod` does not reject the request on
that account. `createSecret` renames the returned object `newname`, and
`CreatePod` goes on to issue the Worker create call for a pod that mounts the
secret `newname`; when the store accepts that Worker, the outcome is
`Accepted = true`, `ResponseType = "Success"`, with an empty error detail. -/
theorem CreatePod_secret_rejected_continues {σ : Type} (env : Env) (cs : Clientset σ)
    (agentRequest : AgentRequest) (ns : String) (w : World σ) (secret s2 : Secret)
    (e : String) (st1 : σ)
    (hsec : secretToCreate env agentRequest = Go.returned secret)
    (hrej : cs.SecretsCreate env.podnamespace secret w.store = ((some s2, some e), st1)) :
    (CreatePod env cs agentRequest ns w).2 =
      ⟨(cs.PodsCreate ns (podToCreate env agentRequest "newname") st1).2,
       w.calls ++ [Call.SecretsCreate env.podnamespace secret,
         Call.PodsCreate ns (podToCreate env agentRequest "newname")]⟩ ∧
    ((cs.PodsCreate ns (podToCreate env agentRequest "newname") st1).1.2 = none →
      (CreatePod env cs agentRequest ns w).1 = Go.returned ⟨"Success", "", true⟩) := by
  rw [CreatePod_after_secret env cs agentRequest ns w _ _
    (createSecret_rejected env cs agentRequest w secret s2 e st1 hsec hrej)]
  refine ⟨by simp, ?_⟩
  intro h
  simp only [h]

/-- Witness for C1 (amended): the rejected Credential creation of
`CreatePod_secret_rejected_counterexample`. -/
theorem CreatePod_secret_rejected_continues_witness :
    (CreatePod sampleEnv (memClientset secretsCreateRejected) sampleRequest "azuredevops"
        emptyWorld).2 =
      ⟨⟨[], [("azuredevops", samplePod "newname")]⟩,
       [Call.SecretsCreate "azuredevops" sampleSecret,
         Call.PodsCreate "azuredevops" (samplePod "newname")]⟩ ∧
    (((memClientset secretsCreateRejected).PodsCreate "azuredevops"
          (podToCreate sampleEnv sampleRequest "newname") emptyWorld.store).1.2 = none →
      (CreatePod sampleEnv (memClientset secretsCreateRejected) sampleRequest "azuredevops"
        emptyWorld).1 = Go.returned ⟨"Success", "", true⟩) :=
  CreatePod_secret_rejected_continues sampleEnv (memClientset secretsCreateRejected)
    sampleRequest "azuredevops" emptyWorld sampleSecret Secret.zero "secrets is forbidden"
    emptyWorld.store (by rfl) (by rfl)

/-- C2 (code defect): whenever the Credential creation succeeds and the store
rejects the Worker creation, `CreatePod` does not return: the failure path calls
`getFailureResponse(response, err)` with the nil `err` of
`getAgentSpecification` instead of `err2`, and `err.Error()` panics. The
Credential create call and the Worker create call have been issued by then. -/
theorem CreatePod_pod_rejected_panics {σ : Type} (env : Env) (cs : Clientset σ)
    (agentRequest : AgentRequest) (ns : String) (w : World σ) (secret s2 : Secret)
    (st1 st2 : σ) (p2 : Option Pod) (e : String)
    (hsec : secretToCreate env agentRequest = Go.returned secret)
    (hacc : cs.SecretsCreate env.podnamespace secret w.store = ((some s2, none), st1))
    (hrej : cs.PodsCreate ns (podToCreate env agentRequest s2.Name) st1 = ((p2, some e), st2)) :
    CreatePod env cs agentRequest ns w =
      (Go.panicked nilDereference,
       ⟨st2, w.calls ++ [Call.SecretsCreate env.podnamespace secret,
         Call.PodsCreate ns (podToCreate env agentRequest s2.Name)]⟩) := by
  rw [CreatePod_after_secret env cs agentRequest ns w _ _
    (createSecret_accepted env cs agentRequest w secret (some s2) st1 hsec hacc)]
  simp [hrej]

/-- Failing run for C2: the Credential `agent-secret` is created, the Worker
creation is rejected, and `CreatePod` panics with the Credential left in the store. -/
theorem CreatePod_pod_rejected_panics_witness :
    CreatePod sampleEnv (memClientset podsCreateRejected) sampleRequest "azuredevops"
        emptyWorld =
      (Go.panicked nilDereference,
       ⟨⟨[("azuredevops", sampleSecret)], []⟩,
        [Call.SecretsCreate "azuredevops" sampleSecret,
          Call.PodsCreate "azuredevops" (samplePod "agent-secret")]⟩) :=
  CreatePod_pod_rejected_panics sampleEnv (memClientset podsCreateRejected) sampleRequest
    "azuredevops" emptyWorld sampleSecret sampleSecret ⟨[("azuredevops", sampleSecret)], []⟩
    ⟨[("azuredevops", sampleSecret)], []⟩ (some Pod.zero) "pods is forbidden"
    (by rfl) (by rfl) (by rfl)

/-- Concrete runs against C3. First: the worker template file cannot be read,
yet `CreatePod` returns `Accepted = true` with no error detail, and both a
Credential and a Worker (built from the zero pod) are in the store. Second: the
worker template is read but decodes with an error, and again `CreatePod` returns
`Accepted = true` with both a Credential and a Worker in the store. -/
theorem CreatePod_template_unreadable_counterexample :
    (missingTemplateEnv.ReadFile "agentpods/azure-pipelines-agent.yaml").2 =
      some "no such file or directory" ∧
    CreatePod missingTemplateEnv (memClientset Faults.none) sampleRequest "azuredevops"
        emptyWorld =
      (Go.returned ⟨"Success", "", true⟩,
       ⟨⟨[("azuredevops", sampleSecret)], [("azuredevops", untemplatedPod)]⟩,
        [Call.SecretsCreate "azuredevops" sampleSecret,
          Call.PodsCreate "azuredevops" untemplatedPod]⟩) ∧
    (undecodableTemplateEnv.UnmarshalPod
      (undecodableTemplateEnv.ReadFile "agentpods/azure-pipelines-agent.yaml").1 Pod.zero).2 =
      some "json: cannot unmarshal string" ∧
    CreatePod undecodableTemplateEnv (memClientset Faults.none) sampleRequest "azuredevops"
        emptyWorld =
      (Go.returned ⟨"Success", "", true⟩,
       ⟨⟨[("azuredevops", sampleSecret)], [("azuredevops", samplePod "agent-secret")]⟩,
        [Call.SecretsCreate "azuredevops" sampleSecret,
          Call.PodsCreate "azuredevops" (samplePod "agent-secret")]⟩) :=
  ⟨by decide, by rfl, by decide, by rfl⟩

/-- C3 (amended): for every provisioning request, whatever reading and decoding
the worker template yields (also when it cannot be read or cannot be decoded),
the first call `CreatePod` issues to the store is the Credential create call, and
the only call that can follow it is one Worker create call. At the end of the
run the store is either as the Credential create call left it or as a Worker
create call issued on top of that left it: a failing worker template does not
keep the Credential from being created. The outcome returned in that case is
not part of this statement. -/
theorem CreatePod_credential_first {σ : Type} (env : Env) (cs : Clientset σ)
    (agentRequest : AgentRequest) (ns : String) (w : World σ) (secret : Secret)
    (hsec : secretToCreate env agentRequest = Go.returned secret) :
    (CreatePod env cs agentRequest ns w).2 =
        ⟨(cs.SecretsCreate env.podnamespace secret w.store).2,
         w.calls ++ [Call.SecretsCreate env.podnamespace secret]⟩ ∨
    ∃ secretName : String,
      (CreatePod env cs agentRequest ns w).2 =
        ⟨(cs.PodsCreate ns (podToCreate env agentRequest secretName)
            (cs.SecretsCreate env.podnamespace secret w.store).2).2,
         w.calls ++ [Call.SecretsCreate env.podnamespace secret,
           Call.PodsCreate ns (podToCreate env agentRequest secretName)]⟩ := by
  have hw := createSecret_world env cs agentRequest w secret hsec
  rcases h : createSecret env cs agentRequest w with ⟨r, w1⟩
  rw [h] at hw
  simp only at hw
  cases r with
  | panicked msg =>
    left
    simp only [CreatePod, h]
    exact hw
  | returned o =>
    cases o with
    | none =>
      left
      unfold CreatePod
      rw [h]
      dsimp only
      rw [getAgentSpecification_eq]
      exact hw
    | some s =>
      right
      refine ⟨s.Name, ?_⟩
      rw [CreatePod_after_secret env cs agentRequest ns w w1 s h, hw]
      simp

/-- Witness for C3 (amended): provisioning `job-1` with the worker template file
missing; the Credential create call comes first and the Credential is in the store. -/
theorem CreatePod_credential_first_witness :
    (CreatePod missingTemplateEnv (memClientset Faults.none) sampleRequest "azuredevops"
        emptyWorld).2 =
        ⟨⟨[("azuredevops", sampleSecret)], []⟩,
         [Call.SecretsCreate "azuredevops" sampleSecret]⟩ ∨
    ∃ secretName : String,
      (CreatePod missingTemplateEnv (memClientset Faults.none) sampleRequest "azuredevops"
        emptyWorld).2 =
        ⟨((memClientset Faults.none).PodsCreate "azuredevops"
            (podToCreate missingTemplateEnv sampleRequest secretName)
            ⟨[("azuredevops", sampleSecret)], []⟩).2,
         [Call.SecretsCreate "azuredevops" sampleSecret,
           Call.PodsCreate "azuredevops"
             (podToCreate missingTemplateEnv sampleRequest secretName)]⟩ :=
  CreatePod_credential_first missingTemplateEnv (memClientset Faults.none) sampleRequest
    "azuredevops" emptyWorld sampleSecret (by rfl)

/-! ## Routing -/

/-- Concrete run against C9: the Worker list for `role=buildkit` succeeds and is
empty, and `GetBuildKitPod` returns status `success` (with the empty string the
stand-in hash yields); whatever `ComputeConsistentHash` is, the run does not
return status `fail`. -/
theorem GetBuildKitPod_empty_pool_counterexample :
    (memClientset Faults.none).PodsList "azuredevops" "role=buildkit" emptyWorld.store =
      (some [], none) ∧
    GetBuildKitPod sampleEnv (memClientset Faults.none) "image:foo" "azuredevops" emptyWorld =
      (Go.returned ⟨"success", ""⟩,
       ⟨emptyWorld.store, [Call.PodsList "azuredevops" "role=buildkit"]⟩) ∧
    ¬ ∃ (hash : List String → String → Go String) (msg : String),
      (GetBuildKitPod { sampleEnv with ComputeConsistentHash := hash }
        (memClientset Faults.none) "image:foo" "azuredevops" emptyWorld).1 =
        Go.returned ⟨"fail", msg⟩ := by
  refine ⟨by rfl, by rfl, ?_⟩
  rintro ⟨hash, msg, h⟩
  have hlist : (memClientset Faults.none).PodsList "azuredevops" "role=buildkit"
      emptyWorld.store = (some [], none) := by rfl
  simp only [GetBuildKitPod, hlist, nodeNames] at h
  cases hh : hash [] "image:foo" <;> simp [hh] at h

/-- C9 (amended): when the Worker list for `role=buildkit` succeeds and yields no
non-empty worker identity, `GetBuildKitPod` hands the empty candidate list to
`ComputeConsistentHash`; when that returns a value, the status is `success` with
that value as the message (a panic of the hash propagates). The run issues the
one list call and never returns status `fail`. -/
theorem GetBuildKitPod_empty_pool {σ : Type} (env : Env) (cs : Clientset σ)
    (key ns : String) (w : World σ) (items : List Pod)
    (hlist : cs.PodsList ns "role=buildkit" w.store = (some items, none))
    (hempty : nodeNames items = []) :
    GetBuildKitPod env cs key ns w =
      (match env.ComputeConsistentHash [] key with
        | Go.panicked msg => Go.panicked msg
        | Go.returned chosen => Go.returned ⟨"success", chosen⟩,
       ⟨w.store, w.calls ++ [Call.PodsList ns "role=buildkit"]⟩) ∧
    ∀ msg, (GetBuildKitPod env cs key ns w).1 ≠ Go.returned ⟨"fail", msg⟩ := by
  have h : GetBuildKitPod env cs key ns w =
      (match env.ComputeConsistentHash [] key with
        | Go.panicked msg => Go.panicked msg
        | Go.returned chosen => Go.returned ⟨"success", chosen⟩,
       ⟨w.store, w.calls ++ [Call.PodsList ns "role=buildkit"]⟩) := by
    simp only [GetBuildKitPod, hlist, hempty]
    cases env.ComputeConsistentHash [] key <;> rfl
  refine ⟨h, ?_⟩
  intro msg
  rw [h]
  cases env.ComputeConsistentHash [] key <;> simp

/-- Witness for C9 (amended): routing `image:foo` when the only pod with the role
label has an empty name. -/
theorem GetBuildKitPod_empty_pool_witness :
    GetBuildKitPod sampleEnv (memClientset Faults.none) "image:foo" "azuredevops"
        ⟨⟨[], [("azuredevops", ⟨"", [("role", "buildkit")], [], "buildkitd"⟩)]⟩, []⟩ =
      (Go.returned ⟨"success", ""⟩,
       ⟨⟨[], [("azuredevops", ⟨"", [("role", "buildkit")], [], "buildkitd"⟩)]⟩,
        [Call.PodsList "azuredevops" "role=buildkit"]⟩) ∧
    ∀ msg, (GetBuildKitPod sampleEnv (memClientset Faults.none) "image:foo" "azuredevops"
        ⟨⟨[], [("azuredevops", ⟨"", [("role", "buildkit")], [], "buildkitd"⟩)]⟩, []⟩).1 ≠
      Go.returned ⟨"fail", msg⟩ :=
  GetBuildKitPod_empty_pool sampleEnv (memClientset Faults.none) "image:foo" "azuredevops"
    ⟨⟨[], [("azuredevops", ⟨"", [("role", "buildkit")], [], "buildkitd"⟩)]⟩, []⟩
    [⟨"", [("role", "buildkit")], [], "buildkitd"⟩] (by rfl) (by rfl)

/-! ## Namespaces -/

/-- C10 (code defect): `CreatePod` called with namespace `build` while the
package-level `podnamespace` is `azuredevops` creates the Credential in
`azuredevops` and the Worker that mounts it in `build`; `DeletePodWithAgentId`
called with `build` right afterwards finds no Credential and fails. -/
theorem CreatePod_secret_namespace_mismatch :
    CreatePod sampleEnv (memClientset Faults.none) sampleRequest "build" emptyWorld =
      (Go.returned ⟨"Success", "", true⟩,
       ⟨⟨[("azuredevops", sampleSecret)], [("build", samplePod "agent-secret")]⟩,
        [Call.SecretsCreate "azuredevops" sampleSecret,
          Call.PodsCreate "build" (samplePod "agent-secret")]⟩) ∧
    (DeletePodWithAgentId (memClientset Faults.none) "job-1" "build"
        (afterProvision sampleEnv sampleRequest "build" emptyWorld)).1 =
      Go.returned ⟨"fail", "Could not find secret with AgentId job-1"⟩ :=
  ⟨by rfl, by rfl⟩

/-! ## Provisioning followed by teardown -/

end PoolProvider
